import Mathlib

/-!
Shallow embedding of the movie read-access layer (src/api/dao/movies.py and
src/api/neo4j.py) and proofs of the specification claims about it.

Movie nodes are modelled as association lists from property names to scalar
values.  The graph store visible to the list queries is a list of movie nodes
plus the set of Favorite relationships (pairs of user id and movie id).  The
`popular` and `goodfellas` fixtures live in api/data.py, which is not part of
the sources here, so functions that return them take the fixture value as an
explicit parameter.
-/

namespace MoviesApp

/-- A scalar property value on a graph node. -/
inductive PropValue
  | int : Int → PropValue
  | str : String → PropValue
  | bool : Bool → PropValue
deriving DecidableEq, Repr, BEq

/-- Type precedence rank used to order values of different types. -/
def PropValue.rank : PropValue → Nat
  | .int _ => 0
  | .str _ => 1
  | .bool _ => 2

/-- Total boolean comparison on property values: values of the same type are
compared by their natural order, values of different types by type rank. -/
def PropValue.le : PropValue → PropValue → Bool
  | .int a, .int b => decide (a ≤ b)
  | .str a, .str b => decide (a ≤ b)
  | .bool a, .bool b => !a || b
  | x, y => decide (x.rank ≤ y.rank)

/-- A movie node: an association list of scalar properties, as returned by
`RETURN m \x7b .* \x7d AS movie`. -/
abbrev Movie := List (String × PropValue)

/-- The read-only view of the graph store used by the list queries:
the Movie nodes and the Favorite relationships (user id, movie tmdbId). -/
structure Store where
  movies : List Movie
  favorites : List (String × String)
deriving DecidableEq, Repr

/-- Python slice `xs[a:b]`: the elements at indices `a ≤ i < b`
(for non-negative bounds). -/
def pySlice (xs : List α) (a b : Nat) : List α :=
  (xs.take b).drop a

/-- Insert `x` into `ys` before the first element `y` with `le x y`. -/
def insertLe (le : α → α → Bool) (x : α) : List α → List α
  | [] => [x]
  | y :: ys => if le x y then x :: y :: ys else y :: insertLe le x ys

/-- Insertion sort with a boolean comparison, modelling the store's
deterministic ORDER BY. -/
def sortLe (le : α → α → Bool) : List α → List α
  | [] => []
  | x :: xs => insertLe le x (sortLe le xs)

/-- ASCII uppercase of one character. -/
def toUpperChar (c : Char) : Char :=
  if 97 ≤ c.toNat && c.toNat ≤ 122 then Char.ofNat (c.toNat - 32) else c

/-- ASCII uppercase of a string, for case-insensitive keyword comparison. -/
def strUpper (s : String) : String := ⟨s.data.map toUpperChar⟩

/-- The ORDER BY direction token is accepted by Cypher, case-insensitively. -/
def validOrder (order : String) : Bool :=
  let o := strUpper order
  o == "ASC" || o == "DESC" || o == "ASCENDING" || o == "DESCENDING"

/-- The ORDER BY direction token asks for a descending sort. -/
def isDesc (order : String) : Bool :=
  let o := strUpper order
  o == "DESC" || o == "DESCENDING"

/-- Comparison of two movie rows on the interpolated sort property, flipped
when the direction is descending; rows reaching the sort are already filtered
to have the property. -/
def rowLe (sort : String) (desc : Bool) (a b : Movie) : Bool :=
  match a.lookup sort, b.lookup sort with
  | some x, some y => if desc then PropValue.le y x else PropValue.le x y
  | _, _ => true

/-- Errors signalled by the DAO layer. -/
inductive DAOError
  | notFound
  | malformedQuery
deriving DecidableEq, Repr

namespace MovieDAO

/-- Semantics of `MovieDAO.get_movies` (src/api/dao/movies.py:148-192): the
Cypher text `MATCH (m:Movie) WHERE exists(m.sort) RETURN m \x7b .* \x7d AS movie
ORDER BY m.sort order SKIP $skip LIMIT $limit` evaluated against the store.
`sort` and `order` are string-interpolated into the query, so a direction
token Cypher does not recognise makes the query malformed; `skip` and `limit`
are bound parameters.  `user_id` is bound but never referenced by the query,
and no `favorite` field is computed: the returned records are exactly the
node property maps. -/
def get_movies (db : Store) (sort order : String) (limit skip : Nat)
    (user_id : Option String) : Except DAOError (List Movie) :=
  if validOrder order then
    let matched := db.movies.filter (fun m => (m.lookup sort).isSome)
    let sorted := sortLe (rowLe sort (isDesc order)) matched
    Except.ok ((sorted.drop skip).take limit)
  else
    Except.error DAOError.malformedQuery

/-- `MovieDAO.all` (src/api/dao/movies.py:29-65): opens a session and runs
`get_movies` in a read transaction with the same arguments. -/
def all (db : Store) (sort order : String) (limit skip : Nat)
    (user_id : Option String) : Except DAOError (List Movie) :=
  get_movies db sort order limit skip user_id

/-- `MovieDAO.get_by_genre` (src/api/dao/movies.py:81-87): the body is the
stub `return popular[skip:limit]`; every other argument is ignored. -/
def get_by_genre (popular : List Movie) (name sort order : String)
    (limit skip : Nat) (user_id : Option String) : List Movie :=
  pySlice popular skip limit

/-- `MovieDAO.get_for_actor` (src/api/dao/movies.py:102-107): the body is the
stub `return popular[skip:limit]`; every other argument is ignored. -/
def get_for_actor (popular : List Movie) (id sort order : String)
    (limit skip : Nat) (user_id : Option String) : List Movie :=
  pySlice popular skip limit

/-- `MovieDAO.get_for_director` (src/api/dao/movies.py:123-128): the body is
the stub `return popular[skip:limit]`; every other argument is ignored. -/
def get_for_director (popular : List Movie) (id sort order : String)
    (limit skip : Nat) (user_id : Option String) : List Movie :=
  pySlice popular skip limit

/-- `MovieDAO.find_by_id` (src/api/dao/movies.py:141-146): the body is the
stub `return goodfellas`; it never raises `NotFoundException` and ignores
both arguments. -/
def find_by_id (goodfellas : Movie) (id : String) (user_id : Option String) :
    Except DAOError Movie :=
  Except.ok goodfellas

/-- `MovieDAO.get_similar_movies` (src/api/dao/movies.py:208-211): the body is
the stub `return popular[skip:limit]`; the target `id` and `user_id` are
ignored. -/
def get_similar_movies (popular : List Movie) (id : String)
    (limit skip : Nat) (user_id : Option String) : List Movie :=
  pySlice popular skip limit

/-- `MovieDAO.get_user_favorites` (src/api/dao/movies.py:220-221): the body is
`return []`, for every transaction and user. -/
def get_user_favorites (tx : Store) (user_id : String) : List String :=
  []

/-- The Cypher text built by `get_movies` (src/api/dao/movies.py:179-188):
`sort` and `order` are interpolated into the string, `skip` and `limit`
appear only as the `$skip` and `$limit` parameter placeholders. -/
def get_movies_cypher (sort order : String) : String :=
  String.intercalate "\n"
    [ "MATCH (m:Movie)"
    , "WHERE exists(m.`" ++ sort ++ "`)"
    , "RETURN m \x7b .* \x7d AS movie"
    , "ORDER BY m.`" ++ sort ++ "` " ++ order
    , "SKIP $skip"
    , "LIMIT $limit"
    ]

/-- The call `tx.run(query=cypher_query, limit=limit, skip=skip,
user_id=user_id)` (src/api/dao/movies.py:189-190): the query text together
with the map of bound parameters. -/
structure TxRun where
  query : String
  limit : Nat
  skip : Nat
  user_id : Option String
deriving DecidableEq, Repr

/-- The transaction request issued by `get_movies` for given arguments. -/
def get_movies_request (sort order : String) (limit skip : Nat)
    (user_id : Option String) : TxRun :=
  { query := get_movies_cypher sort order
  , limit := limit
  , skip := skip
  , user_id := user_id }

end MovieDAO

/-- A handle to the external database driver. -/
structure Driver where
  id : Nat
deriving DecidableEq, Repr

/-- The process-wide state touched by `close_driver`
(src/api/neo4j.py:59-65): the `current_app.driver` handle, plus a count of
how many `driver.close()` operations have been performed, so that "performs
no close operation" is expressible. -/
structure AppState where
  driver : Option Driver
  closeOps : Nat
deriving DecidableEq, Repr

/-- `close_driver` (src/api/neo4j.py:59-65): if the handle is not None it
closes the driver, sets the handle to None and returns the (now None) handle;
otherwise it falls through and returns None.  Explicit state passing: the
result is the new state together with the returned value. -/
def close_driver (s : AppState) : AppState × Option Driver :=
  match s.driver with
  | some _ => ({ driver := none, closeOps := s.closeOps + 1 }, none)
  | none => (s, none)

/-- Modelled from the spec: the Pagination and Sort Policy of §4.1 belongs to
the request-handling layer, which is not among the sources here; only its
contract is specified.  "`sort`: must be a permitted movie property name;
defaults to `"title"` if unspecified or invalid". -/
def normalize_sort (permitted : List String) (sort : String) : String :=
  if permitted.contains sort then sort else "title"

/-- Modelled from the spec: the Pagination and Sort Policy of §4.1 belongs to
the request-handling layer, which is not among the sources here; only its
contract is specified.  "`order`: one of `ASC`/`DESC` (case-insensitive);
defaults to `ASC`; any other value is rejected to default". -/
def normalize_order (order : String) : String :=
  if strUpper order == "ASC" || strUpper order == "DESC" then strUpper order
  else "ASC"

/-- Two-element fixture standing in for the `popular` list of api/data.py. -/
def popA : Movie := [("tmdbId", PropValue.str "1"), ("title", PropValue.str "A")]

/-- Second element of the two-element fixture. -/
def popB : Movie := [("tmdbId", PropValue.str "2"), ("title", PropValue.str "B")]

/-- A store with one movie and one Favorite relationship of user U1 to it. -/
def favStore : Store := { movies := [popA], favorites := [("U1", "1")] }

/-- C1: the claim asks that every list operation return the slice
`[skip, skip+limit)` of the full ordering, so that pages `skip=0,limit=1` and
`skip=1,limit=1` partition the first two results.  The stubbed operations
return the Python slice `popular[skip:limit]`, i.e. `[skip, limit)`: on a
two-movie dataset the first page is the first movie but the second page is
empty, while the specified slice `[1, 2)` is the second movie — a gap. -/
theorem claim_C1_page2_empty :
    MovieDAO.get_by_genre [popA, popB] "Comedy" "title" "ASC" 1 0 none = [popA] ∧
    MovieDAO.get_by_genre [popA, popB] "Comedy" "title" "ASC" 1 1 none = [] ∧
    ([popA, popB].drop 1).take 1 = [popB] :=
  ⟨rfl, rfl, rfl⟩

/-- C2: the claim asks that with a `user_id` supplied every returned record
carry a `favorite` field, true exactly when a Favorite relationship exists.
In the code, `all` runs `get_movies`, whose query never touches Favorite
relationships and returns bare node property maps: on a store where user U1
favorites movie 1, the returned record has no `favorite` key at all, and the
output does not depend on `user_id`. -/
theorem claim_C2_no_favorite_field :
    MovieDAO.all favStore "title" "ASC" 6 0 (some "U1") = Except.ok [popA] ∧
    popA.lookup "favorite" = none ∧
    favStore.favorites.contains ("U1", "1") = true ∧
    MovieDAO.all favStore "title" "ASC" 6 0 (some "U1") =
      MovieDAO.all favStore "title" "ASC" 6 0 none := by
  refine ⟨rfl, rfl, by decide, rfl⟩

/-- C3: the claim asks that `find_by_id` signal NotFound for every id that
matches no movie.  The code returns the `goodfellas` fixture as a success
payload for every id whatsoever, so the NotFound condition is never
signalled. -/
theorem claim_C3_always_success (g : Movie) (id : String) (u : Option String) :
    MovieDAO.find_by_id g id u = Except.ok g :=
  rfl

/-- C4: the claim asks that `get_similar_movies(m, ...)` never contain the
movie with id `m`.  The code returns `popular[skip:limit]` ignoring the id:
when the fixture contains a movie with tmdbId "1", the call with id "1"
returns a list containing that very movie. -/
theorem claim_C4_target_in_own_list :
    popA ∈ MovieDAO.get_similar_movies [popA, popB] "1" 6 0 none ∧
    popA.lookup "tmdbId" = some (PropValue.str "1") := by
  refine ⟨?_, rfl⟩
  simp [MovieDAO.get_similar_movies, pySlice]

/-- C5: in `get_movies` the Cypher text is built without the skip and limit
values — they appear only as the `$skip` and `$limit` placeholders — and the
values travel in the bound parameter map of `tx.run`: the query text is
identical for any two skip/limit pairs. -/
theorem claim_C5_skip_limit_bound (sort order : String) (l1 k1 l2 k2 : Nat)
    (u : Option String) :
    (MovieDAO.get_movies_request sort order l1 k1 u).query =
      (MovieDAO.get_movies_request sort order l2 k2 u).query ∧
    (MovieDAO.get_movies_request sort order l1 k1 u).limit = l1 ∧
    (MovieDAO.get_movies_request sort order l1 k1 u).skip = k1 :=
  ⟨rfl, rfl, rfl⟩

/-- C6: the Pagination and Sort Policy (modelled from the spec, §4.1)
corrects a sort value that is not a permitted property name to "title" and
any order other than ASC/DESC (case-insensitive) to "ASC"; both functions
are total, so invalid inputs never error the request. -/
theorem claim_C6_normalize_defaults (permitted : List String)
    (sort order : String) (hs : permitted.contains sort = false)
    (h1 : strUpper order ≠ "ASC") (h2 : strUpper order ≠ "DESC") :
    normalize_sort permitted sort = "title" ∧ normalize_order order = "ASC" := by
  constructor
  · unfold normalize_sort
    rw [if_neg]
    simpa using hs
  · unfold normalize_order
    rw [if_neg]
    simp [h1, h2]

/-- C6 witness: a sort name outside the permitted list and a non-ASC/DESC
order token are both corrected to the defaults. -/
theorem claim_C6_normalize_defaults_witness :
    normalize_sort ["title", "released", "imdbRating"] "budget" = "title" ∧
    normalize_order "down" = "ASC" :=
  claim_C6_normalize_defaults ["title", "released", "imdbRating"] "budget"
    "down" (by decide) (by decide) (by decide)

/-- C7: the claim asks that a movie lacking the sort property never appear in
sorted list results.  `get_movies` does filter on `exists(m.sort)`, but the
stubbed `get_by_genre` returns the fixture slice with no such filter: a movie
with no "imdbRating" property is returned when sorting by "imdbRating". -/
theorem claim_C7_missing_sort_property_listed :
    MovieDAO.get_by_genre [popA, popB] "Action" "imdbRating" "ASC" 6 0 none =
      [popA, popB] ∧
    popA.lookup "imdbRating" = none :=
  ⟨rfl, rfl⟩

/-- C8: `close_driver` is idempotent: the first call leaves the handle None,
and calling it again performs no close operation, changes nothing and
returns None without error. -/
theorem claim_C8_close_driver_idempotent (s : AppState) :
    ((close_driver s).1).driver = none ∧
    close_driver ((close_driver s).1) = ((close_driver s).1, none) ∧
    ((close_driver ((close_driver s).1)).1).closeOps =
      ((close_driver s).1).closeOps := by
  cases s with
  | mk d c => cases d <;> simp [close_driver]

/-- C9: `get_user_favorites` returns the empty list for every transaction and
every user id, favorites in the store notwithstanding. -/
theorem claim_C9_user_favorites_empty (tx : Store) (uid : String) :
    MovieDAO.get_user_favorites tx uid = [] :=
  rfl

/-- C10: for fixed skip and limit, the stubbed list operations are
independent of every other argument: genre name, person or movie id, sort,
order and user id never change the result. -/
theorem claim_C10_ignores_other_arguments (popular : List Movie)
    (limit skip : Nat) (n1 n2 s1 s2 o1 o2 i1 i2 : String)
    (u1 u2 : Option String) :
    MovieDAO.get_by_genre popular n1 s1 o1 limit skip u1 =
      MovieDAO.get_by_genre popular n2 s2 o2 limit skip u2 ∧
    MovieDAO.get_for_actor popular i1 s1 o1 limit skip u1 =
      MovieDAO.get_for_actor popular i2 s2 o2 limit skip u2 ∧
    MovieDAO.get_for_director popular i1 s1 o1 limit skip u1 =
      MovieDAO.get_for_director popular i2 s2 o2 limit skip u2 ∧
    MovieDAO.get_similar_movies popular i1 limit skip u1 =
      MovieDAO.get_similar_movies popular i2 limit skip u2 :=
  ⟨rfl, rfl, rfl, rfl⟩

end MoviesApp
